import Mathlib

/-!
Verification of the options-tracker analytics engine.

Shallow embedding of the analytics-and-detection core of the repository:
the liquidity scorer and opportunity detectors (backend/opportunities.py),
the persistence/reconciliation step of the scan orchestrator
(backend/opportunities.py, scan_all_opportunities / scan_symbol_opportunities /
_save_opportunities), the volatility analytics (backend/calculations.py,
calculate_historical_volatility), the Black-Scholes pricing fallback and the
Newton-Raphson implied-volatility solver (backend/calculations.py), and the
delta computation (backend/greeks_calculator.py).

Python float arithmetic is embedded as exact arithmetic: the detector and
scorer side (whose constants are all decimal literals) over the rationals,
the transcendental pricing side (log, sqrt, exp, the normal cdf) over the
reals.  Nullable SQLAlchemy columns become Option fields.  Python truthiness
of a nullable float column (None and 0.0 are both falsy) is embedded
explicitly wherever the source tests a bare column.
-/

namespace OptionsTracker

/-! ## Liquidity scorer — opportunities.py, calculate_liquidity_score (lines 71-105)

The latest OptionPrice row is embedded with the fields the detectors read:
bid, ask, last_price, volume, open_interest, implied_volatility, the Greeks,
and spread_percentage.  Columns that are nullable in models.py are Option. -/

/-- Python str.lower(), embedded character-wise (the option-type strings it
is applied to are plain ASCII). -/
def pyLower (s : String) : String :=
  String.mk (s.data.map Char.toLower)

structure OptionQuote where
  bid : ℚ
  ask : ℚ
  last_price : ℚ
  volume : ℤ
  open_interest : Option ℤ
  implied_volatility : Option ℚ
  delta : Option ℚ
  gamma : Option ℚ
  theta : Option ℚ
  vega : Option ℚ
  spread_percentage : Option ℚ
deriving DecidableEq

/-- Spread component of the liquidity score (lines 79-85).  The source guards
the block with Python truthiness: a spread_percentage that is None or 0.0
skips the block and contributes 0 points.  TIGHT_SPREAD = 5, ACCEPTABLE_SPREAD
= 10. -/
def spreadScore : Option ℚ → ℚ
  | none => 0
  | some s =>
    if s = 0 then 0
    else if s < 5 then 40
    else if s < 10 then 30 * (1 - (s - 5) / (10 - 5))
    else 0

/-- Volume component (lines 87-94): the block is guarded by volume > 0. -/
def volumeScore (v : ℤ) : ℚ :=
  if v > 0 then
    if v ≥ 100 then 30
    else if v ≥ 50 then 20
    else if v ≥ 10 then 10
    else 0
  else 0

/-- Open-interest component (lines 96-103), again guarded by truthiness of the
nullable column (None and 0 both skip the block). -/
def oiScore : Option ℤ → ℚ
  | none => 0
  | some oi =>
    if oi = 0 then 0
    else if oi ≥ 1000 then 30
    else if oi ≥ 500 then 20
    else if oi ≥ 100 then 10
    else 0

/-- calculate_liquidity_score: score accumulates the three components and is
returned as min(score, 100). -/
def calculate_liquidity_score (q : OptionQuote) : ℚ :=
  min (spreadScore q.spread_percentage + volumeScore q.volume + oiScore q.open_interest) 100

/-- A quote whose spread_percentage is 0 and whose volume and open interest
contribute nothing: used to exhibit the zero-spread behaviour. -/
def quoteSpreadZero : OptionQuote :=
  ⟨0, 0, 0, 0, none, none, none, none, none, none, some 0⟩

/-- The same quote with spread_percentage = 1 instead of 0. -/
def quoteSpreadOne : OptionQuote :=
  ⟨0, 0, 0, 0, none, none, none, none, none, none, some 1⟩

lemma spreadScore_nonneg (sp : Option ℚ) : 0 ≤ spreadScore sp := by
  cases sp with
  | none => simp [spreadScore]
  | some s => simp only [spreadScore]; split_ifs <;> (try norm_num) <;> linarith

lemma volumeScore_nonneg (v : ℤ) : 0 ≤ volumeScore v := by
  unfold volumeScore
  split_ifs <;> norm_num

lemma oiScore_nonneg (oi : Option ℤ) : 0 ≤ oiScore oi := by
  cases oi with
  | none => simp [oiScore]
  | some n => simp only [oiScore]; split_ifs <;> norm_num

lemma volumeScore_mono {v v' : ℤ} (h : v ≤ v') : volumeScore v ≤ volumeScore v' := by
  unfold volumeScore
  split_ifs <;> try norm_num <;> omega

lemma oiScore_mono {a b : ℤ} (h : a ≤ b) : oiScore (some a) ≤ oiScore (some b) := by
  simp only [oiScore]
  split_ifs <;> try norm_num <;> omega

lemma spreadScore_anti {s s' : ℚ} (hs : 0 < s) (h : s ≤ s') :
    spreadScore (some s') ≤ spreadScore (some s) := by
  simp only [spreadScore]
  split_ifs <;> linarith

/-- C4 (amended): the spread component of the liquidity score is 40 for a
defined, nonzero spread percentage strictly below 5, tapers as
30·(1−(s−5)/5) on [5, 10), and is 0 at or above 10, when undefined, and —
by Python truthiness of the float column — also when the spread percentage
equals exactly 0. -/
theorem spread_component_of_liquidity_score :
    ∀ s : ℚ,
      (s ≠ 0 → s < 5 → spreadScore (some s) = 40) ∧
      (5 ≤ s → s < 10 → spreadScore (some s) = 30 * (1 - (s - 5) / 5)) ∧
      (10 ≤ s → spreadScore (some s) = 0) ∧
      spreadScore (some 0) = 0 ∧ spreadScore none = 0 ∧
      (∀ q : OptionQuote, calculate_liquidity_score q =
        min (spreadScore q.spread_percentage + volumeScore q.volume + oiScore q.open_interest) 100) := by
  intro s
  refine ⟨?_, ?_, ?_, ?_, ?_, fun _ => rfl⟩
  · intro h1 h2
    simp only [spreadScore]
    rw [if_neg h1, if_pos h2]
  · intro h1 h2
    simp only [spreadScore]
    rw [if_neg (by linarith), if_neg (by linarith), if_pos h2]
    norm_num
  · intro h1
    simp only [spreadScore]
    rw [if_neg (by linarith), if_neg (by linarith), if_neg (by linarith)]
  · simp [spreadScore]
  · rfl

/-- C4 counterexample: a quote whose spread percentage is exactly 0 — defined
and strictly below 5 — receives 0 spread points, not the full 40: its whole
liquidity score is 0. -/
theorem spread_zero_gets_no_points :
    spreadScore (some 0) = 0 ∧ calculate_liquidity_score quoteSpreadZero = 0 := by
  constructor
  · simp [spreadScore]
  · norm_num [calculate_liquidity_score, quoteSpreadZero, spreadScore, volumeScore, oiScore]

/-- C5 (amended): the liquidity score is monotonically non-decreasing in
volume and in open interest, and monotonically non-increasing in the spread
percentage over strictly positive spread percentages.  (At spread percentage
exactly 0 the monotonicity in spread fails, see the counterexample: 0 is
falsy in Python, so the whole spread block is skipped.) -/
theorem liquidity_score_monotonicity :
    ∀ (bid ask lastp : ℚ) (v v' : ℤ) (a b : ℤ) (oi : Option ℤ)
      (iv dl gm th vg : Option ℚ) (sp : Option ℚ) (s s' : ℚ),
      (v ≤ v' →
        calculate_liquidity_score ⟨bid, ask, lastp, v, oi, iv, dl, gm, th, vg, sp⟩ ≤
        calculate_liquidity_score ⟨bid, ask, lastp, v', oi, iv, dl, gm, th, vg, sp⟩) ∧
      (a ≤ b →
        calculate_liquidity_score ⟨bid, ask, lastp, v, some a, iv, dl, gm, th, vg, sp⟩ ≤
        calculate_liquidity_score ⟨bid, ask, lastp, v, some b, iv, dl, gm, th, vg, sp⟩) ∧
      (0 < s → s ≤ s' →
        calculate_liquidity_score ⟨bid, ask, lastp, v, oi, iv, dl, gm, th, vg, some s'⟩ ≤
        calculate_liquidity_score ⟨bid, ask, lastp, v, oi, iv, dl, gm, th, vg, some s⟩) := by
  intro bid ask lastp v v' a b oi iv dl gm th vg sp s s'
  refine ⟨fun h => ?_, fun h => ?_, fun hs h => ?_⟩ <;>
    unfold calculate_liquidity_score <;>
    refine min_le_min ?_ le_rfl <;> simp only
  · exact add_le_add (add_le_add le_rfl (volumeScore_mono h)) le_rfl
  · exact add_le_add le_rfl (oiScore_mono h)
  · exact add_le_add (add_le_add (spreadScore_anti hs h) le_rfl) le_rfl

/-- C5 counterexample: two quotes agreeing on every field except the spread
percentage, 0 versus 1: the spread percentage increases yet the liquidity
score strictly increases from 0 to 40, so the score is not non-increasing in
the spread percentage. -/
theorem liquidity_score_not_spread_antitone :
    (0 : ℚ) < 1 ∧
    calculate_liquidity_score quoteSpreadZero < calculate_liquidity_score quoteSpreadOne := by
  constructor
  · norm_num
  · norm_num [calculate_liquidity_score, quoteSpreadZero, quoteSpreadOne, spreadScore,
      volumeScore, oiScore]

/-! ## Opportunity detectors — opportunities.py (lines 107-607)

Each detector is embedded as a function of the inputs the Python method
reads: the latest quote, the latest IV-analysis row (as an optional iv_rank),
the contract fields it uses, and the clock- and calculator-derived scalars
(days_to_expiry = time_to_expiry·365 computed from datetime.now(), and for
the mispricing detector the value returned by
calculator.calculate_theoretical_price, which is embedded separately over ℝ
below).  The result carries the dict fields relevant here: contract_id,
opportunity_type, the clamped score, and the mid price the detector put into
its metadata/description (premium, cost, market_price) when it does. -/

structure DetectorResult where
  contract_id : ℕ
  opportunity_type : String
  score : ℚ
  market_price : Option ℚ
deriving DecidableEq

/-- The mid-price expression every detector repeats:
mid_price = (bid + ask) / 2 if (bid > 0 and ask > 0) else last_price. -/
def midPrice (q : OptionQuote) : ℚ :=
  if 0 < q.bid ∧ 0 < q.ask then (q.bid + q.ask) / 2 else q.last_price

/-- detect_premium_selling_opportunity (lines 107-209).  ivRank is the latest
IVAnalysis row's iv_rank, none when no row exists.  The Greeks gate
`if not theta or not vega or not delta` is Python truthiness: a Greek that is
None or exactly 0.0 fails it.  Thresholds: IV_RANK_MID_HIGH = 60,
IV_RANK_HIGH = 80. -/
def detect_premium_selling_opportunity (ivRank : Option ℚ) (contract_id : ℕ)
    (q : OptionQuote) (days_to_expiry : ℚ) : Option DetectorResult :=
  match ivRank with
  | none => none
  | some ivr =>
    if ivr < 60 then none
    else
      match q.theta, q.vega, q.delta with
      | some th, some vg, some dl =>
        if th = 0 ∨ vg = 0 ∨ dl = 0 then none
        else
          let theta_magnitude := |th|
          if theta_magnitude < 0.02 then none
          else
            let delta_magnitude := |dl|
            if delta_magnitude < 0.10 then none
            else if days_to_expiry < 7 ∨ days_to_expiry > 90 then none
            else
              let s1 : ℚ := 40 + (if ivr ≥ 80 then 25 else 15 * (ivr - 60) / (80 - 60))
              let s2 := s1 + min (theta_magnitude / 0.10 * 15) 15
              let s3 := s2 + (if vg > 0.20 then 10 else if vg > 0.10 then 5 else 0)
              let s4 := s3 + min (calculate_liquidity_score q / 10) 10
              let mid_price := midPrice q
              some ⟨contract_id, "premium_sell", min s4 100, some mid_price⟩
      | _, _, _ => none

/-- detect_premium_buying_opportunity (lines 211-313).  Thresholds:
IV_RANK_MID_LOW = 40, IV_RANK_LOW = 20. -/
def detect_premium_buying_opportunity (ivRank : Option ℚ) (contract_id : ℕ)
    (q : OptionQuote) (days_to_expiry : ℚ) : Option DetectorResult :=
  match ivRank with
  | none => none
  | some ivr =>
    if ivr > 40 then none
    else
      match q.theta, q.vega, q.delta with
      | some th, some vg, some dl =>
        if th = 0 ∨ vg = 0 ∨ dl = 0 then none
        else
          let theta_magnitude := |th|
          if vg < 0.05 then none
          else if days_to_expiry < 20 ∨ days_to_expiry > 120 then none
          else
            let s1 : ℚ := 40 + (if ivr ≤ 20 then 25 else 15 * (40 - ivr) / (40 - 20))
            let s2 := s1 + min (vg / 0.30 * 15) 15
            let s3 := s2 + (if theta_magnitude < 0.02 then 10
                            else if theta_magnitude < 0.05 then 5 else 0)
            let s4 := s3 + min (calculate_liquidity_score q / 10) 10
            let mid_price := midPrice q
            some ⟨contract_id, "premium_buy", min s4 100, some mid_price⟩
      | _, _, _ => none

/-- detect_gamma_scalping_opportunity (lines 315-419).  The source computes
mid_price here too (line 393) but uses it neither in the score nor in the
description/metadata, so the result record carries none. -/
def detect_gamma_scalping_opportunity (contract_id : ℕ) (strike_price : ℚ)
    (option_type : String) (q : OptionQuote) (stock_price : ℚ)
    (days_to_expiry : ℚ) : Option DetectorResult :=
  match q.gamma, q.theta, q.delta with
  | some gm, some th, some dl =>
    if gm = 0 ∨ th = 0 ∨ dl = 0 then none
    else
      let gamma_magnitude := |gm|
      if gamma_magnitude < 0.01 then none
      else
        let moneyness :=
          if option_type = "put" then strike_price / stock_price
          else stock_price / strike_price
        if moneyness < 0.90 ∨ moneyness > 1.10 then none
        else if days_to_expiry < 7 ∨ days_to_expiry > 45 then none
        else
          let theta_magnitude := |th|
          if theta_magnitude = 0 then none
          else
            let gamma_theta := gamma_magnitude / theta_magnitude
            if gamma_theta < 0.5 then none
            else
              let liquidity := calculate_liquidity_score q
              if liquidity < 50 then none
              else
                let s1 : ℚ := 45 + min (gamma_magnitude / 0.05 * 20) 20
                let s2 := s1 + max (15 * (1 - |1 - moneyness| / 0.10)) 0
                let s3 := s2 + min (gamma_theta / 2.0 * 10) 10
                let s4 := s3 + min (liquidity / 10) 10
                some ⟨contract_id, "gamma_scalp", min s4 100, none⟩
  | _, _, _ => none

/-- detect_mispricing_opportunity (lines 421-506).  time_to_expiry is the
calculator.calculate_time_to_expiry value and theoretical_price the
calculator.calculate_theoretical_price value; both are clock/ℝ-side inputs
passed in by value.  The IV gate `if not iv or iv <= 0` (truthiness plus the
explicit comparison) admits exactly iv present and > 0.
MISPRICING_THRESHOLD = 0.15. -/
def detect_mispricing_opportunity (contract_id : ℕ) (q : OptionQuote)
    (time_to_expiry theoretical_price : ℚ) : Option DetectorResult :=
  match q.implied_volatility with
  | none => none
  | some iv =>
    if iv ≤ 0 then none
    else if time_to_expiry ≤ 0 then none
    else if theoretical_price ≤ 0 then none
    else
      let mid_price := midPrice q
      if mid_price ≤ 0 then none
      else
        let mispricing_pct := (mid_price - theoretical_price) / theoretical_price
        if |mispricing_pct| < 0.15 then none
        else
          let liquidity := calculate_liquidity_score q
          if liquidity < 40 then none
          else
            let s1 : ℚ := 50 + min (|mispricing_pct| / 0.30 * 30) 30
            let s2 := s1 + min (liquidity / 5) 20
            some ⟨contract_id, if mispricing_pct > 0 then "overpriced" else "underpriced",
                  min s2 100, some mid_price⟩

/-- detect_high_delta_opportunity (lines 508-607).  The mid price enters only
the ITM-depth bonus; the metadata/description do not carry it, so the result
record's market_price is none. -/
def detect_high_delta_opportunity (contract_id : ℕ) (strike_price : ℚ)
    (option_type : String) (q : OptionQuote) (stock_price : ℚ)
    (days_to_expiry : ℚ) : Option DetectorResult :=
  match q.delta, q.theta with
  | some dl, some th =>
    if dl = 0 ∨ th = 0 then none
    else
      let delta_magnitude := |dl|
      if delta_magnitude < 0.65 then none
      else if days_to_expiry < 20 ∨ days_to_expiry > 180 then none
      else
        let liquidity := calculate_liquidity_score q
        if liquidity < 30 then none
        else
          let theta_magnitude := |th|
          let delta_theta := if theta_magnitude > 0 then delta_magnitude / theta_magnitude else 0
          let s1 : ℚ := 45 + min ((delta_magnitude - 0.65) / 0.35 * 20) 20
          let s2 := s1 + (if delta_theta > 15 then 15
                          else if delta_theta > 10 then 10
                          else if delta_theta > 5 then 5 else 0)
          let s3 := s2 + min (liquidity / 10) 10
          let intrinsic :=
            if pyLower option_type = "call" then max 0 (stock_price - strike_price)
            else max 0 (strike_price - stock_price)
          let mid_price := midPrice q
          let s4 := s3 + (if mid_price > 0 then
                            (if (if intrinsic > 0 then intrinsic / mid_price else 0) > 0.7 then 10
                             else if (if intrinsic > 0 then intrinsic / mid_price else 0) > 0.5 then 5
                             else 0)
                          else 0)
          some ⟨contract_id, "high_delta", min s4 100, none⟩
  | _, _ => none

/-- C10: the mid price every detector computes is (bid+ask)/2 exactly when
both bid and ask are strictly positive and the quote's last traded price
otherwise; the detectors that expose it (premium selling, premium buying,
mispricing) emit exactly that value, and the mispricing detector emits no
candidate at all when the resulting market price is ≤ 0. -/
theorem detectors_market_price_is_mid :
    ∀ (q : OptionQuote) (ivRank : Option ℚ) (cid : ℕ) (days t theo : ℚ)
      (r : DetectorResult),
      (0 < q.bid ∧ 0 < q.ask → midPrice q = (q.bid + q.ask) / 2) ∧
      (¬(0 < q.bid ∧ 0 < q.ask) → midPrice q = q.last_price) ∧
      (detect_premium_selling_opportunity ivRank cid q days = some r →
        r.market_price = some (midPrice q)) ∧
      (detect_premium_buying_opportunity ivRank cid q days = some r →
        r.market_price = some (midPrice q)) ∧
      (detect_mispricing_opportunity cid q t theo = some r →
        r.market_price = some (midPrice q) ∧ 0 < midPrice q) ∧
      (midPrice q ≤ 0 → detect_mispricing_opportunity cid q t theo = none) := by
  intro q ivRank cid days t theo r
  refine ⟨fun h => if_pos h, fun h => if_neg h, fun h => ?_, fun h => ?_, fun h => ?_, fun h => ?_⟩
  · simp only [detect_premium_selling_opportunity] at h
    repeat' split at h
    all_goals first
      | exact Option.noConfusion h
      | (obtain rfl := Option.some.inj h; rfl)
  · simp only [detect_premium_buying_opportunity] at h
    repeat' split at h
    all_goals first
      | exact Option.noConfusion h
      | (obtain rfl := Option.some.inj h; rfl)
  · simp only [detect_mispricing_opportunity] at h
    repeat' split at h
    all_goals first
      | exact Option.noConfusion h
      | (obtain rfl := Option.some.inj h; exact ⟨rfl, by linarith⟩)
  · simp only [detect_mispricing_opportunity]
    split
    · rfl
    · split_ifs <;> first | rfl | linarith

/-! ## Persistence / reconciliation — opportunities.py (lines 609-757)

The trading_opportunities table is embedded as a list of rows.  The scan
orchestrator's persistence path is embedded with the detection loop
abstracted by its outcome: the list of retained candidates (each detector
dict's contract_id, opportunity_type, score and description).  The session
is sessionmaker(autocommit=False, autoflush=False), so inside one
_save_opportunities call every dedup lookup is a SQL query answered from the
state committed before the batch (pending adds and attribute updates are not
flushed), and the single commit at the end applies the whole batch
atomically; the except-branch calls rollback, which discards the whole
batch.  `write_ok = false` models a store write error at commit time. -/

structure StoredOpp where
  row_id : ℕ
  contract_id : ℕ
  opportunity_type : String
  score : ℚ
  description : String
  timestamp : ℕ
  is_active : Bool
deriving DecidableEq

structure Candidate where
  contract_id : ℕ
  opportunity_type : String
  score : ℚ
  description : String
deriving DecidableEq

/-- The dedup lookup's filter (lines 728-734): same contract_id, same
opportunity_type, and — crucially — is_active == True. -/
def isActiveMatch (c : Candidate) (row : StoredOpp) : Bool :=
  row.contract_id == c.contract_id && row.opportunity_type == c.opportunity_type && row.is_active

/-- A fresh autoincrement id for an insert. -/
def freshId (rows : List StoredOpp) : ℕ :=
  (rows.map StoredOpp.row_id).foldr max 0 + 1

/-- The new active row `TradingOpportunity(...)` built at lines 743-749;
timestamp defaults to the current time. -/
def newRow (rows : List StoredOpp) (c : Candidate) (now : ℕ) : StoredOpp :=
  ⟨freshId rows, c.contract_id, c.opportunity_type, c.score, c.description, now, true⟩

/-- One iteration of the loop in _save_opportunities: look the candidate up
in the pre-batch snapshot; update score/description/timestamp of the matched
row in place, or add a new active row. -/
def applySave (snapshot : List StoredOpp) (now : ℕ) (rows : List StoredOpp)
    (c : Candidate) : List StoredOpp :=
  match (snapshot.filter (isActiveMatch c)).head? with
  | some row =>
    rows.map fun s =>
      if s.row_id = row.row_id then
        ⟨s.row_id, s.contract_id, s.opportunity_type, c.score, c.description, now, s.is_active⟩
      else s
  | none => rows ++ [newRow rows c now]

/-- _save_opportunities (lines 723-757): on success the whole batch commits;
on a write error the session is rolled back and the error is caught and
logged inside the method, so the store is unchanged and nothing propagates. -/
def save_opportunities (write_ok : Bool) (db : List StoredOpp)
    (cands : List Candidate) (now : ℕ) : List StoredOpp :=
  if write_ok then cands.foldl (applySave db now) db else db

/-- The bulk update at line 697:
db.query(TradingOpportunity).update(is_active := False), committed. -/
def deactivateAll (db : List StoredOpp) : List StoredOpp :=
  db.map fun row =>
    ⟨row.row_id, row.contract_id, row.opportunity_type, row.score, row.description,
      row.timestamp, false⟩

/-- The persistence path of scan_all_opportunities(save_to_db=True)
(lines 682-721): first deactivate every stored opportunity and commit, then
scan every watchlist symbol with save_to_db=False (yielding the retained
candidates, here the parameter `cands`), then _save_opportunities on the
whole batch. -/
def scan_all_opportunities (db : List StoredOpp) (cands : List Candidate)
    (now : ℕ) : List StoredOpp :=
  save_opportunities true (deactivateAll db) cands now

/-- The persistence path of scan_symbol_opportunities(save_to_db=True)
(lines 609-680): the retained candidates `cands` are saved when nonempty,
and the candidate list itself is returned to the caller whatever the store
write did. -/
def scan_symbol_opportunities (write_ok : Bool) (db : List StoredOpp)
    (cands : List Candidate) (now : ℕ) : List Candidate × List StoredOpp :=
  (cands, if cands.isEmpty then db else save_opportunities write_ok db cands now)

/-- The pure insert trace: the rows the batch appends when no candidate ever
matches an active stored row. -/
def insertTrace (rows : List StoredOpp) (now : ℕ) : List Candidate → List StoredOpp
  | [] => []
  | c :: cs =>
    let rw := newRow rows c now
    rw :: insertTrace (rows ++ [rw]) now cs

lemma deactivateAll_inactive (db : List StoredOpp) :
    ∀ row ∈ deactivateAll db, row.is_active = false := by
  intro row hrow
  simp only [deactivateAll, List.mem_map] at hrow
  obtain ⟨s, -, rfl⟩ := hrow
  rfl

lemma isActiveMatch_false_of_inactive (c : Candidate) (row : StoredOpp)
    (h : row.is_active = false) : isActiveMatch c row = false := by
  simp [isActiveMatch, h]

lemma foldl_applySave_inactive (snapshot : List StoredOpp) (now : ℕ)
    (hsnap : ∀ row ∈ snapshot, row.is_active = false) :
    ∀ (cands : List Candidate) (rows : List StoredOpp),
      cands.foldl (applySave snapshot now) rows = rows ++ insertTrace rows now cands := by
  intro cands
  induction cands with
  | nil => intro rows; simp [insertTrace]
  | cons c cs ih =>
    intro rows
    have hfilter : snapshot.filter (isActiveMatch c) = [] := by
      rw [List.filter_eq_nil]
      intro row hrow
      simp [isActiveMatch_false_of_inactive c row (hsnap row hrow)]
    simp only [List.foldl_cons, insertTrace]
    rw [show applySave snapshot now rows c = rows ++ [newRow rows c now] by
          simp [applySave, hfilter]]
    rw [ih (rows ++ [newRow rows c now]), List.append_assoc]
    rfl

lemma insertTrace_active (now : ℕ) :
    ∀ (cands : List Candidate) (rows : List StoredOpp) (row : StoredOpp),
      row ∈ insertTrace rows now cands → row.is_active = true := by
  intro cands
  induction cands with
  | nil => intro rows row h; simp [insertTrace] at h
  | cons c cs ih =>
    intro rows row h
    simp only [insertTrace, List.mem_cons] at h
    rcases h with rfl | h
    · rfl
    · exact ih _ row h

/-- C1 (amended): during a full-universe scan with persistence, every stored
opportunity is first marked inactive, and then the update/reactivate branch
of _save_opportunities never fires — its dedup lookup requires
is_active == True, which the initial deactivation has just falsified — so
every retained candidate inserts exactly one brand-new active record, and a
candidate whose (contract, type) identity already exists among the (now
inactive) stored records does create a second record with that identity. -/
theorem scan_all_always_inserts :
    ∀ (db : List StoredOpp) (cands : List Candidate) (now : ℕ),
      scan_all_opportunities db cands now =
        deactivateAll db ++ insertTrace (deactivateAll db) now cands ∧
      (∀ row ∈ insertTrace (deactivateAll db) now cands, row.is_active = true) ∧
      (scan_all_opportunities db cands now).length = db.length + cands.length := by
  intro db cands now
  have hmain : scan_all_opportunities db cands now =
      deactivateAll db ++ insertTrace (deactivateAll db) now cands := by
    unfold scan_all_opportunities save_opportunities
    rw [if_pos rfl]
    exact foldl_applySave_inactive _ now (deactivateAll_inactive db) cands (deactivateAll db)
  refine ⟨hmain, fun row h => insertTrace_active now cands _ row h, ?_⟩
  rw [hmain, List.length_append]
  have hlen : ∀ (cs : List Candidate) (rows : List StoredOpp),
      (insertTrace rows now cs).length = cs.length := by
    intro cs
    induction cs with
    | nil => intro rows; simp [insertTrace]
    | cons c cs ih => intro rows; simp [insertTrace, ih]
  simp [deactivateAll, hlen]

/-- The stored record used by the C1 counterexample: an active opportunity
for contract 5 of type premium_sell. -/
def storedPremiumSell : StoredOpp :=
  ⟨1, 5, "premium_sell", 70, "old", 0, true⟩

/-- A retained candidate with the same (contract, type) identity. -/
def candPremiumSell : Candidate :=
  ⟨5, "premium_sell", 80, "new"⟩

/-- C1 counterexample: scanning with a candidate whose (contract, type)
identity equals that of an already stored opportunity does not update that
record in place — it leaves it deactivated with its old score and inserts a
second record with the same identity, so two records with identity
(5, premium_sell) now exist. -/
theorem scan_all_duplicates_identity :
    scan_all_opportunities [storedPremiumSell] [candPremiumSell] 1 =
      [⟨1, 5, "premium_sell", 70, "old", 0, false⟩,
       ⟨2, 5, "premium_sell", 80, "new", 1, true⟩] ∧
    (List.filter
        (fun row => row.contract_id == 5 && row.opportunity_type == "premium_sell")
        (scan_all_opportunities [storedPremiumSell] [candPremiumSell] 1)).length = 2 := by
  constructor <;> rfl

/-- C2 (amended): the caller of scan_symbol_opportunities receives the
candidate list itself, identical whether the store write succeeded or
failed — no result/error value surfaces — while a failed write rolls the
session back so the store is exactly unchanged (and a successful write
commits the whole batch). -/
theorem scan_symbol_swallows_write_error :
    ∀ (write_ok : Bool) (db : List StoredOpp) (cands : List Candidate) (now : ℕ),
      (scan_symbol_opportunities write_ok db cands now).1 = cands ∧
      (scan_symbol_opportunities false db cands now).2 = db ∧
      (scan_symbol_opportunities true db cands now).2 =
        (if cands.isEmpty then db else save_opportunities true db cands now) := by
  intro write_ok db cands now
  refine ⟨rfl, ?_, rfl⟩
  unfold scan_symbol_opportunities save_opportunities
  split <;> rfl

/-- C2 counterexample: with one stored-row database and one candidate, the
value returned to the caller is identical on a failed and on a successful
store write — the failure is invisible in the scan's result — even though
the two writes leave different stores behind. -/
theorem scan_symbol_write_error_invisible :
    (scan_symbol_opportunities false [] [candPremiumSell] 1).1 =
      (scan_symbol_opportunities true [] [candPremiumSell] 1).1 ∧
    (scan_symbol_opportunities false [] [candPremiumSell] 1).2 ≠
      (scan_symbol_opportunities true [] [candPremiumSell] 1).2 := by
  constructor
  · rfl
  · decide

/-! ## Volatility analytics — calculations.py, calculate_historical_volatility
(lines 296-328)

The pandas series of close prices is embedded as a list of reals in time
order.  Series.tail(n) keeps the last n elements; the shifted quotient plus
dropna yields one log-return per consecutive pair; Series.std() is the
sample standard deviation (ddof = 1). -/

/-- pandas Series.tail(n): the last n elements (everything when n exceeds
the length). -/
def tailList (l : List ℝ) (n : ℕ) : List ℝ :=
  l.drop (l.length - n)

/-- np.log(prices / prices.shift(1)).dropna(): one log-return per
consecutive pair of prices. -/
noncomputable def logReturns (prices : List ℝ) : List ℝ :=
  (prices.zip prices.tail).map fun p => Real.log (p.2 / p.1)

noncomputable def listMean (xs : List ℝ) : ℝ :=
  xs.sum / xs.length

/-- Sample variance with ddof = 1, as pandas Series.std squares. -/
noncomputable def sampleVariance (xs : List ℝ) : ℝ :=
  ((xs.map fun x => (x - listMean xs) ^ 2).sum) / (xs.length - 1)

/-- pandas Series.std(): sample standard deviation. -/
noncomputable def sampleStd (xs : List ℝ) : ℝ :=
  Real.sqrt (sampleVariance xs)

/-- calculate_historical_volatility: keep the trailing period_days + 1
prices, return the 0.0 sentinel when fewer than 10 remain, else the
annualized sample standard deviation of the log-returns. -/
noncomputable def calculate_historical_volatility (price_history : List ℝ)
    (period_days : ℕ) : ℝ :=
  let prices := tailList price_history (period_days + 1)
  if prices.length < 10 then 0
  else sampleStd (logReturns prices) * Real.sqrt 252

/-- C3 (amended): the insufficient-data sentinel of
calculate_historical_volatility is governed by a fixed count of 10, not by
window+1: with fewer than 10 samples remaining in the trailing
window+1 slice the function returns exactly 0.0, and with at least 10 it
returns the sample standard deviation of the log-returns over that slice
multiplied by sqrt(252). -/
theorem historical_volatility_sentinel :
    ∀ (l : List ℝ) (w : ℕ),
      ((tailList l (w + 1)).length < 10 → calculate_historical_volatility l w = 0) ∧
      (10 ≤ (tailList l (w + 1)).length →
        calculate_historical_volatility l w =
          sampleStd (logReturns (tailList l (w + 1))) * Real.sqrt 252) := by
  intro l w
  constructor
  · intro h
    simp only [calculate_historical_volatility]
    rw [if_pos h]
  · intro h
    simp only [calculate_historical_volatility]
    rw [if_neg (by omega)]

/-- Ten close prices — fewer than the window+1 = 31 samples the claim's
sentinel would require — whose log-returns are not all equal. -/
noncomputable def histVolCexPrices : List ℝ :=
  [1, 2, 2, 2, 2, 2, 2, 2, 2, 2]

/-- C3 counterexample: a series of 10 close prices with window_days = 30 has
fewer than window+1 = 31 samples, yet calculate_historical_volatility
returns a strictly positive value, not the 0.0 sentinel the claim
requires. -/
theorem historical_volatility_short_series_nonzero :
    histVolCexPrices.length < 30 + 1 ∧
    calculate_historical_volatility histVolCexPrices 30 ≠ 0 := by
  have hlog : 0 < Real.log 2 := Real.log_pos (by norm_num)
  have htail : tailList histVolCexPrices (30 + 1) = histVolCexPrices := rfl
  have hlr : logReturns histVolCexPrices =
      [Real.log 2, 0, 0, 0, 0, 0, 0, 0, 0] := by
    norm_num [logReturns, histVolCexPrices, Real.log_one]
  have hvar : sampleVariance [Real.log 2, 0, 0, 0, 0, 0, 0, 0, 0] =
      Real.log 2 ^ 2 / 9 := by
    simp [sampleVariance, listMean]
    ring
  constructor
  · norm_num [histVolCexPrices]
  · simp only [calculate_historical_volatility, htail]
    rw [if_neg (by norm_num [histVolCexPrices]), hlr]
    unfold sampleStd
    rw [hvar]
    have h4 : 0 < Real.sqrt (Real.log 2 ^ 2 / 9) :=
      Real.sqrt_pos.mpr (div_pos (pow_pos hlog 2) (by norm_num))
    have h5 : 0 < Real.sqrt 252 := Real.sqrt_pos.mpr (by norm_num)
    exact ne_of_gt (mul_pos h4 h5)

/-! ## Pricing kernel — greeks_calculator.py and calculations.py

scipy.stats.norm.pdf and norm.cdf are the standard normal density and its
cumulative distribution, embedded over ℝ. -/

noncomputable def normPdf (x : ℝ) : ℝ :=
  (Real.sqrt (2 * Real.pi))⁻¹ * Real.exp (-(x ^ 2) / 2)

noncomputable def normCdf (x : ℝ) : ℝ :=
  ∫ t in Set.Iic x, normPdf t

/-- GreeksCalculator.calculate_d1_d2 (greeks_calculator.py lines 35-68):
volatility is clamped to max(volatility, 0.0001) before use. -/
noncomputable def calculate_d1_d2 (stock_price strike_price time_to_expiry
    volatility risk_free_rate : ℝ) : ℝ × ℝ :=
  let vol := max volatility 0.0001
  let d1 := (Real.log (stock_price / strike_price) +
      (risk_free_rate + 0.5 * vol ^ 2) * time_to_expiry) /
      (vol * Real.sqrt time_to_expiry)
  (d1, d1 - vol * Real.sqrt time_to_expiry)

/-- GreeksCalculator.calculate_delta (greeks_calculator.py lines 70-111):
norm.cdf(d1) for a call, norm.cdf(d1) - 1 for a put (the except-branch is
unreachable for the positive inputs considered here). -/
noncomputable def calculate_delta (stock_price strike_price time_to_expiry
    volatility : ℝ) (option_type : String) (risk_free_rate : ℝ) : ℝ :=
  let d1 := (calculate_d1_d2 stock_price strike_price time_to_expiry
    volatility risk_free_rate).1
  if pyLower option_type = "call" then normCdf d1 else normCdf d1 - 1

/-- C8: for positive stock price, strike, time to expiry and volatility the
call delta minus the put delta at identical inputs is exactly 1 — both
branches share the same d1, and Φ(d1) − (Φ(d1) − 1) = 1. -/
theorem delta_call_sub_delta_put (S K t sigma r : ℝ)
    (hS : 0 < S) (hK : 0 < K) (ht : 0 < t) (hsigma : 0 < sigma) :
    calculate_delta S K t sigma "call" r - calculate_delta S K t sigma "put" r = 1 := by
  simp only [calculate_delta]
  rw [if_pos (by decide), if_neg (by decide)]
  ring

/-- Witness for C8 at S = K = t = σ = 1, r = 0. -/
theorem delta_call_sub_delta_put_witness :
    calculate_delta 1 1 1 1 "call" 0 - calculate_delta 1 1 1 1 "put" 0 = 1 :=
  delta_call_sub_delta_put 1 1 1 1 0 (by norm_num) (by norm_num) (by norm_num) (by norm_num)

/-! ## Newton-Raphson implied volatility — calculations.py (lines 111-207)

_bs_price_scipy, _calculate_vega_scipy and _implied_vol_newton_raphson.
The loop is stated over arbitrary price and vega functions f and g and
instantiated with the Black-Scholes ones, exactly as the Python methods
call each other. -/

/-- OptionsCalculator._bs_price_scipy (lines 111-125). -/
noncomputable def bs_price_scipy (S K t sigma : ℝ) (option_type : String) (r : ℝ) : ℝ :=
  let d1 := (Real.log (S / K) + (r + 0.5 * sigma ^ 2) * t) / (sigma * Real.sqrt t)
  let d2 := d1 - sigma * Real.sqrt t
  if pyLower option_type = "call" then
    S * normCdf d1 - K * Real.exp (-r * t) * normCdf d2
  else
    K * Real.exp (-r * t) * normCdf (-d2) - S * normCdf (-d1)

/-- OptionsCalculator._calculate_vega_scipy (lines 204-207). -/
noncomputable def calculate_vega_scipy (S K t sigma r : ℝ) : ℝ :=
  let d1 := (Real.log (S / K) + (r + 0.5 * sigma ^ 2) * t) / (sigma * Real.sqrt t)
  S * normPdf d1 * Real.sqrt t / 100

/-- The body of the for-loop in _implied_vol_newton_raphson (lines 185-202),
as a fuel recursion over arbitrary price function f and vega function g:
return sigma as soon as |f sigma − target| < tol; fail when the vega is 0;
update sigma by the Newton step (vega is per 1%, hence the ·100); fail when
the update is ≤ 0; when the fuel (max_iterations) runs out, fail. -/
noncomputable def nrLoop (f g : ℝ → ℝ) (target tol : ℝ) : ℕ → ℝ → Option ℝ
  | 0, _ => none
  | fuel + 1, sigma =>
    if |f sigma - target| < tol then some sigma
    else if g sigma = 0 then none
    else
      let sigma' := sigma - (f sigma - target) / (g sigma * 100)
      if sigma' ≤ 0 then none
      else nrLoop f g target tol fuel sigma'

/-- OptionsCalculator._implied_vol_newton_raphson with its default
max_iterations = 100 and tolerance = 1e-5, seeded at sigma = 0.5. -/
noncomputable def implied_vol_newton_raphson (target_price S K t : ℝ)
    (option_type : String) (r : ℝ) : Option ℝ :=
  nrLoop (fun sigma => bs_price_scipy S K t sigma option_type r)
    (fun sigma => calculate_vega_scipy S K t sigma r) target_price 1e-5 100 0.5

/-- The unguarded Newton iterate sequence from the seed 0.5:
σ₀ = 0.5, σ_{n+1} = σ_n − (f σ_n − target)/(g σ_n · 100). -/
noncomputable def nrSeq (f g : ℝ → ℝ) (target : ℝ) : ℕ → ℝ
  | 0 => 0.5
  | n + 1 =>
    let s := nrSeq f g target n
    s - (f s - target) / (g s * 100)

lemma nrLoop_eq_some_iff (f g : ℝ → ℝ) (target tol : ℝ) :
    ∀ (fuel k : ℕ) (x : ℝ),
      nrLoop f g target tol fuel (nrSeq f g target k) = some x ↔
        ∃ n, n < fuel ∧ x = nrSeq f g target (k + n) ∧
          |f (nrSeq f g target (k + n)) - target| < tol ∧
          ∀ m, m < n →
            ¬|f (nrSeq f g target (k + m)) - target| < tol ∧
            g (nrSeq f g target (k + m)) ≠ 0 ∧
            0 < nrSeq f g target (k + m + 1) := by
  intro fuel
  induction fuel with
  | zero =>
    intro k x
    simp [nrLoop]
  | succ fuel ih =>
    intro k x
    by_cases hconv : |f (nrSeq f g target k) - target| < tol
    · rw [show nrLoop f g target tol (fuel + 1) (nrSeq f g target k) =
          some (nrSeq f g target k) by simp [nrLoop, hconv]]
      constructor
      · intro h
        obtain rfl := (Option.some.inj h).symm
        exact ⟨0, Nat.succ_pos fuel, by simp, by simpa using hconv,
          fun m hm => absurd hm (Nat.not_lt_zero m)⟩
      · rintro ⟨n, -, hx, -, hall⟩
        match n with
        | 0 => simp only [Nat.add_zero] at hx; rw [hx]
        | n + 1 => exact absurd hconv (hall 0 (Nat.succ_pos n)).1
    · by_cases hg : g (nrSeq f g target k) = 0
      · rw [show nrLoop f g target tol (fuel + 1) (nrSeq f g target k) = none by
            simp [nrLoop, hconv, hg]]
        constructor
        · intro h
          exact Option.noConfusion h
        · rintro ⟨n, -, -, hc, hall⟩
          match n with
          | 0 => exact absurd (by simpa using hc) hconv
          | n + 1 => exact absurd hg (hall 0 (Nat.succ_pos n)).2.1
      · have hstep : nrSeq f g target k -
            (f (nrSeq f g target k) - target) / (g (nrSeq f g target k) * 100) =
            nrSeq f g target (k + 1) := rfl
        by_cases hpos : nrSeq f g target (k + 1) ≤ 0
        · rw [show nrLoop f g target tol (fuel + 1) (nrSeq f g target k) = none by
              simp only [nrLoop, if_neg hconv, if_neg hg, hstep]
              rw [if_pos hpos]]
          constructor
          · intro h
            exact Option.noConfusion h
          · rintro ⟨n, -, -, hc, hall⟩
            match n with
            | 0 => exact absurd (by simpa using hc) hconv
            | n + 1 => exact absurd (hall 0 (Nat.succ_pos n)).2.2 (not_lt.mpr hpos)
        · rw [show nrLoop f g target tol (fuel + 1) (nrSeq f g target k) =
              nrLoop f g target tol fuel (nrSeq f g target (k + 1)) by
              simp only [nrLoop, if_neg hconv, if_neg hg, hstep]
              rw [if_neg hpos]]
          rw [ih (k + 1) x]
          constructor
          · rintro ⟨n, hn, hx, hc, hall⟩
            refine ⟨n + 1, Nat.succ_lt_succ hn, ?_, ?_, ?_⟩
            · rw [show k + (n + 1) = k + 1 + n by omega]
              exact hx
            · rw [show k + (n + 1) = k + 1 + n by omega]
              exact hc
            · intro m hm
              match m with
              | 0 => exact ⟨by simpa using hconv, by simpa using hg, by simpa using not_le.mp hpos⟩
              | m + 1 =>
                have := hall m (Nat.lt_of_succ_lt_succ hm)
                rw [show k + (m + 1) = k + 1 + m by omega]
                exact this
          · rintro ⟨n, hn, hx, hc, hall⟩
            match n with
            | 0 => exact absurd (by simpa using hc) hconv
            | n + 1 =>
              refine ⟨n, Nat.lt_of_succ_lt_succ hn, ?_, ?_, ?_⟩
              · rw [show k + 1 + n = k + (n + 1) by omega]
                exact hx
              · rw [show k + 1 + n = k + (n + 1) by omega]
                exact hc
              · intro m hm
                have := hall (m + 1) (Nat.succ_lt_succ hm)
                rw [show k + 1 + m = k + (m + 1) by omega]
                exact this

/-- C6: _implied_vol_newton_raphson is exactly the guarded Newton-Raphson
iteration: it runs nrLoop on the scipy Black-Scholes price and vega with
tolerance 1e-5, 100 iterations of fuel and seed 0.5; the iterate sequence
starts at 0.5 and follows σ_{n+1} = σ_n − (f σ_n − target)/(g σ_n · 100);
and the loop returns some x exactly when x is the first iterate within the
tolerance, reached in under 100 steps with every earlier step having nonzero
vega and a strictly positive successor iterate — otherwise it returns the
no-solution value none. -/
theorem newton_raphson_fallback_characterized :
    ∀ (target S K t : ℝ) (option_type : String) (r : ℝ) (f g : ℝ → ℝ) (tgt x : ℝ),
      implied_vol_newton_raphson target S K t option_type r =
        nrLoop (fun sigma => bs_price_scipy S K t sigma option_type r)
          (fun sigma => calculate_vega_scipy S K t sigma r) target 1e-5 100 0.5 ∧
      nrSeq f g tgt 0 = 0.5 ∧
      (∀ n : ℕ, nrSeq f g tgt (n + 1) =
        nrSeq f g tgt n - (f (nrSeq f g tgt n) - tgt) / (g (nrSeq f g tgt n) * 100)) ∧
      (nrLoop f g tgt 1e-5 100 0.5 = some x ↔
        ∃ n, n < 100 ∧ x = nrSeq f g tgt n ∧ |f (nrSeq f g tgt n) - tgt| < 1e-5 ∧
          ∀ m, m < n → ¬|f (nrSeq f g tgt m) - tgt| < 1e-5 ∧
            g (nrSeq f g tgt m) ≠ 0 ∧ 0 < nrSeq f g tgt (m + 1)) := by
  intro target S K t option_type r f g tgt x
  refine ⟨rfl, rfl, fun n => rfl, ?_⟩
  have h := nrLoop_eq_some_iff f g tgt 1e-5 100 0 x
  simpa using h

lemma nrLoop_some_tol (f g : ℝ → ℝ) (target tol : ℝ) :
    ∀ (fuel : ℕ) (sigma x : ℝ),
      nrLoop f g target tol fuel sigma = some x → |f x - target| < tol := by
  intro fuel
  induction fuel with
  | zero =>
    intro s x h
    exact Option.noConfusion h
  | succ n ih =>
    intro s x h
    simp only [nrLoop] at h
    split_ifs at h with h1 h2 h3
    · obtain rfl := (Option.some.inj h).symm
      exact h1
    all_goals first
      | exact Option.noConfusion h
      | exact ih _ x h

/-- C9: the Newton-Raphson fallback never returns the last iterate merely
because the fuel ran out — with fuel 0 the loop returns none — so every
some-result of the loop, and in particular of _implied_vol_newton_raphson
on the Black-Scholes price, satisfies the 1e-5 convergence test. -/
theorem newton_raphson_some_converged :
    ∀ (f g : ℝ → ℝ) (target tol : ℝ) (fuel : ℕ) (sigma0 x : ℝ),
      (nrLoop f g target tol fuel sigma0 = some x → |f x - target| < tol) ∧
      nrLoop f g target tol 0 sigma0 = none ∧
      (∀ (tp S K t : ℝ) (option_type : String) (r y : ℝ),
        implied_vol_newton_raphson tp S K t option_type r = some y →
          |bs_price_scipy S K t y option_type r - tp| < 1e-5) := by
  intro f g target tol fuel sigma0 x
  refine ⟨fun h => nrLoop_some_tol f g target tol fuel sigma0 x h, rfl, ?_⟩
  intro tp S K t option_type r y hy
  exact nrLoop_some_tol _ _ tp 1e-5 100 0.5 y hy

end OptionsTracker
